import Mathlib

/-!
Verification development for the real-time control loop of
`lerobot/common/robot_devices/control_utils.py`.

The Python source is shallowly embedded: the mutable keyboard-event dictionary
becomes an association list of flag names to booleans, wall-clock reads
(`time.perf_counter`) become per-iteration environment inputs, and the
side effects of one loop run (robot connection, teleoperation steps,
observation capture, frame recording, display, waiting, logging) are
collected into an explicit trace of actions.  Throughout, rationals stand
for the Python floats that hold durations and frame rates.
-/

/-- The `events` dictionary shared with the keyboard listener, embedded as an
association list from flag name to boolean (Python dicts preserve insertion
order; assignment of an existing key updates in place, of a new key appends). -/
abbrev Events := List (String × Bool)

/-- Dictionary read `events[k]`: `none` models a Python `KeyError`. -/
def getFlag : Events → String → Option Bool
  | [], _ => none
  | (k0, v0) :: t, k => if k0 = k then some v0 else getFlag t k

/-- Dictionary write `events[k] = v`. -/
def setFlag : Events → String → Bool → Events
  | [], k, v => [(k, v)]
  | (k0, v0) :: t, k, v => if k0 = k then (k0, v) :: t else (k0, v0) :: setFlag t k v

/-- The slice of `LeRobotDataset` that `control_loop` reads: its configured
frame rate (`dataset.fps`). -/
structure Dataset where
  fps : ℚ
deriving DecidableEq

/-- Modelled from the spec: `LeRobotDataset.__getitem__` lives outside the
embedded sources (only `lerobot/common/robot_devices/` is in scope).  The
spec's recorder interface (§6) exposes `addFrame`, a configured frame rate, a
feature schema and device-type metadata, but no subscript access to the
configured frame rate; subscripting a recorder with the string key `fps`
is therefore not the frame-rate attribute and fails (for the real
`LeRobotDataset`, `dataset["fps"]` raises a `KeyError` since datasets have no
`fps` column). -/
def dataset_getitem (_d : Dataset) (key : String) : Except String ℚ :=
  .error ("KeyError: " ++ key)

/-- Modelled from the spec: `busy_wait` is imported from
`lerobot.common.robot_devices.utils`, which is outside the embedded sources.
Per the spec, the timing governor waits out the remaining budget and never
performs a negative wait: if the iteration overran, it proceeds immediately.
The returned rational is the wait actually performed: the requested number of
seconds when positive, zero otherwise. -/
def busy_wait (seconds : ℚ) : ℚ := if seconds ≤ 0 then 0 else seconds

/-- One observable side effect of a loop run. -/
inductive Act where
  | connect
  | teleopStep
  | captureObservation
  | sendAction
  | addFrame
  | display
  | busyWait (period : ℚ) (dt : ℚ) (wait : ℚ)
  | log
deriving DecidableEq

/-- Environment inputs consumed by one loop iteration: the elapsed iteration
time `dt` read from the monotonic clock at the pacing point, the total elapsed
episode time `ts` read at the end of the iteration, and which flags the
background keyboard listener set during the iteration (the listener only ever
sets flags to true). -/
structure IterInput where
  dt : ℚ
  ts : ℚ
  setExit : Bool
  setRerecord : Bool
  setStop : Bool
deriving DecidableEq

/-- Flag writes performed by the keyboard listener during one iteration.  They
reach the loop's dictionary only when the loop shares the caller's `events`
dictionary (`shared`); the fresh dictionary substituted for `events=None` is
invisible to the listener. -/
def applyExt (shared : Bool) (inp : IterInput) (e : Events) : Events :=
  if shared then
    let e1 := if inp.setExit then setFlag e "exit_early" true else e
    let e2 := if inp.setRerecord then setFlag e1 "rerecord_episode" true else e1
    if inp.setStop then setFlag e2 "stop_recording" true else e2
  else e

/-- How a terminating loop run ended: by duration exhaustion at the `while`
condition, or by the `exit_early` break. -/
inductive ExitKind where
  | duration
  | earlyExit
deriving DecidableEq

/-- Outcome of a `control_loop` run.  `outOfInputs` marks runs whose modelled
environment input was exhausted while the loop would still continue. -/
inductive LoopResult where
  | configError (msg : String) (trace : List Act)
  | runtimeError (msg : String) (trace : List Act)
  | outOfInputs (events : Events) (trace : List Act)
  | done (kind : ExitKind) (events : Events) (trace : List Act)

/-- Trace of side effects carried by every outcome. -/
def resultTrace : LoopResult → List Act
  | .configError _ tr => tr
  | .runtimeError _ tr => tr
  | .outOfInputs _ tr => tr
  | .done _ _ tr => tr

/-- Loop condition `timestamp < control_time_s`, where `control_time_s=None`
became `float("inf")`. -/
def loopCond : Option ℚ → ℚ → Bool
  | none, _ => true
  | some c, t => decide (t < c)

/-- Parameters of `control_loop` that the iteration body reads. -/
structure LoopParams where
  teleoperate : Bool
  display_cameras : Bool
  headless : Bool
  dataset : Option Dataset
  policy : Bool
  fps : Option ℕ
  control_time_s : Option ℚ
  shared : Bool

def unboundActionMsg : String :=
  "UnboundLocalError: local variable action referenced before assignment"

def exitKeyErrorMsg : String := "KeyError: exit_early"

def modeExclusivityMsg : String :=
  "When teleoperate is True, policy should be None."

/-- Device interactions of one iteration: a teleoperation step when
teleoperating, otherwise an observation capture followed, when a policy is
present, by sending the predicted action. -/
def obsActs (p : LoopParams) : List Act :=
  if p.teleoperate then [Act.teleopStep]
  else Act.captureObservation :: (if p.policy then [Act.sendAction] else [])

/-- Pacing effect of one iteration: when a target fps is set, the loop calls
`busy_wait(1 / fps - dt_s)`. -/
def waitActs (p : LoopParams) (inp : IterInput) : List Act :=
  match p.fps with
  | some f => [Act.busyWait (1 / (f : ℚ)) inp.dt (busy_wait (1 / (f : ℚ) - inp.dt))]
  | none => []

/-- Remaining effects of one iteration after the device interaction: frame
recording, camera display, pacing, and the per-iteration log line. -/
def tailActs (p : LoopParams) (inp : IterInput) : List Act :=
  (if p.dataset.isSome then [Act.addFrame] else []) ++
    (if p.display_cameras && !p.headless then [Act.display] else []) ++
      waitActs p inp ++ [Act.log]

/-- The `while timestamp < control_time_s` loop of `control_loop`.  Each
iteration performs the device interaction, records a frame when a dataset is
present (crashing like the Python source when the local `action` was never
assigned, i.e. neither teleoperation nor a policy is active), displays, paces,
logs, refreshes the timestamp, and finally performs the end-of-iteration
boundary check: if `events["exit_early"]` is true it is reset to false and the
loop breaks. -/
def runIters (p : LoopParams) (inputs : List IterInput) (timestamp : ℚ)
    (events : Events) (trace : List Act) : LoopResult :=
  if loopCond p.control_time_s timestamp then
    match inputs with
    | [] => .outOfInputs events trace
    | inp :: rest =>
      if p.dataset.isSome && !(p.teleoperate || p.policy) then
        .runtimeError unboundActionMsg (trace ++ obsActs p)
      else
        match getFlag (applyExt p.shared inp events) "exit_early" with
        | none => .runtimeError exitKeyErrorMsg (trace ++ obsActs p ++ tailActs p inp)
        | some b =>
          if b then
            .done .earlyExit (setFlag (applyExt p.shared inp events) "exit_early" false)
              (trace ++ obsActs p ++ tailActs p inp)
          else
            runIters p rest inp.ts (applyExt p.shared inp events)
              (trace ++ obsActs p ++ tailActs p inp)
  else .done .duration events trace

/-- Arguments of `control_loop`, with the Python defaults. -/
structure LoopArgs where
  robot_connected : Bool
  control_time_s : Option ℚ := none
  teleoperate : Bool := false
  display_cameras : Bool := false
  dataset : Option Dataset := none
  events : Option Events := none
  policy : Bool := false
  fps : Option ℕ := none
  headless : Bool := true

/-- The dictionary the loop works with: the caller's `events`, or the fresh
substitute `{"exit_early": False}` when `events=None`. -/
def initialEvents : Option Events → Events
  | none => [("exit_early", false)]
  | some e => e

def mkParams (args : LoopArgs) : LoopParams :=
  { teleoperate := args.teleoperate
    display_cameras := args.display_cameras
    headless := args.headless
    dataset := args.dataset
    policy := args.policy
    fps := args.fps
    control_time_s := args.control_time_s
    shared := args.events.isSome }

/-- Effects performed before the pre-flight validations: `control_loop`
connects the robot first whenever it is not already connected. -/
def initTrace (robot_connected : Bool) : List Act :=
  if robot_connected then [] else [Act.connect]

/-- Embeds `control_loop`: connects the robot when needed, substitutes the default
events dictionary, then performs the two pre-flight validations in source
order (mode exclusivity, then dataset/requested fps agreement — whose error
message is built with `dataset["fps"]`), and finally runs the iterations. -/
def control_loop (args : LoopArgs) (inputs : List IterInput) : LoopResult :=
  if args.teleoperate && args.policy then
    .configError modeExclusivityMsg (initTrace args.robot_connected)
  else
    match args.dataset, args.fps with
    | some d, some f =>
      if d.fps ≠ (f : ℚ) then
        match dataset_getitem d "fps" with
        | .error e => .runtimeError e (initTrace args.robot_connected)
        | .ok v =>
          .configError
            (s!"The dataset fps should be equal to requested fps ({v} != {f}).")
            (initTrace args.robot_connected)
      else
        runIters (mkParams args) inputs 0 (initialEvents args.events)
          (initTrace args.robot_connected)
    | _, _ =>
      runIters (mkParams args) inputs 0 (initialEvents args.events)
        (initTrace args.robot_connected)

/-- Embeds `warmup_record`: runs `control_loop` with the warm-up duration, the
caller's `enable_teleoperation` flag, and neither dataset nor policy. -/
def warmup_record (robot_connected : Bool) (events : Option Events)
    (enable_teleoperation : Bool) (warmup_time_s : Option ℚ)
    (display_cameras : Bool) (headless : Bool) (fps : Option ℕ)
    (inputs : List IterInput) : LoopResult :=
  control_loop
    { robot_connected := robot_connected
      control_time_s := warmup_time_s
      teleoperate := enable_teleoperation
      display_cameras := display_cameras
      events := events
      fps := fps
      headless := headless } inputs

/-- Outcome of a `reset_environment` run. -/
inductive ResetResult where
  | runtimeError (msg : String)
  | outOfInputs (events : Events)
  | done (kind : ExitKind) (events : Events)

/-- The `while timestamp < reset_time_s` wait loop of `reset_environment`:
each tick sleeps one second, refreshes the timestamp, and then performs the
same `exit_early` boundary check as `control_loop` (`dt` of the input is
unused here). -/
def resetIters (inputs : List IterInput) (reset_time_s : ℚ) (timestamp : ℚ)
    (events : Events) : ResetResult :=
  if decide (timestamp < reset_time_s) then
    match inputs with
    | [] => .outOfInputs events
    | inp :: rest =>
      match getFlag (applyExt true inp events) "exit_early" with
      | none => .runtimeError exitKeyErrorMsg
      | some b =>
        if b then .done .earlyExit (setFlag (applyExt true inp events) "exit_early" false)
        else resetIters rest reset_time_s inp.ts (applyExt true inp events)
  else .done .duration events

/-- Embeds `reset_environment`: the optional `teleop_safety_stop` call has no bearing
on the events dictionary and is elided; the tick loop is `resetIters` started
at timestamp 0 on the caller's (always shared) events dictionary. -/
def reset_environment (events : Events) (reset_time_s : ℚ)
    (inputs : List IterInput) : ResetResult :=
  resetIters inputs reset_time_s 0 events

/-!
Compatibility checker `sanity_check_dataset_robot_compatibility`.

Python values reaching `DeepDiff` (strings, numbers, nested dicts) are
embedded as a small value tree.  `DeepDiff(a, b, exclude_regex_paths=
[".*\x5b'info'\x5d$"])` is non-empty exactly when the two values differ after
every dictionary entry whose key path ends in `info` is excluded (the regex
matches such a path at any depth, and DeepDiff does not descend below an
excluded path).  Dictionaries are compared as mappings, not as ordered lists
of entries, so the embedded comparison canonicalises entries by sorting on
the (unique) keys.
-/

/-- A Python value compared by the compatibility checker. -/
inductive Value where
  | str : String → Value
  | num : ℚ → Value
  | dict : List (String × Value) → Value

/-- Ordered insertion of a dictionary entry by key. -/
def insertEntry (e : String × Value) : List (String × Value) → List (String × Value)
  | [] => [e]
  | e0 :: t => if e.1 < e0.1 then e :: e0 :: t else e0 :: insertEntry e t

/-- Canonical ordering of dictionary entries by key. -/
def sortEntries : List (String × Value) → List (String × Value)
  | [] => []
  | e :: t => insertEntry e (sortEntries t)

mutual

/-- Removes every dictionary entry keyed `info`, at any depth, and
canonicalises the remaining entries; two values are DeepDiff-equal under the
`info` exclusion exactly when their stripped forms coincide. -/
def stripInfo : Value → Value
  | Value.str s => Value.str s
  | Value.num q => Value.num q
  | Value.dict l => Value.dict (sortEntries (stripEntries l))

/-- Entry-list companion of `stripInfo`. -/
def stripEntries : List (String × Value) → List (String × Value)
  | [] => []
  | (k, v) :: t => if k = "info" then stripEntries t else (k, stripInfo v) :: stripEntries t

end

mutual

/-- Boolean structural equality of values. -/
def valueBEq : Value → Value → Bool
  | Value.str a, Value.str b => a == b
  | Value.num a, Value.num b => a == b
  | Value.dict a, Value.dict b => entriesBEq a b
  | _, _ => false

/-- Boolean structural equality of entry lists. -/
def entriesBEq : List (String × Value) → List (String × Value) → Bool
  | [], [] => true
  | (k1, v1) :: t1, (k2, v2) :: t2 => k1 == k2 && valueBEq v1 v2 && entriesBEq t1 t2
  | _, _ => false

end

/-- Holds when `DeepDiff(dataset_value, present_value, exclude_regex_paths)`
with the info exclusion is non-empty. -/
def deepDiffNonempty (a b : Value) : Bool := !(valueBEq (stripInfo a) (stripInfo b))

/-- The dataset-side metadata the checker reads. -/
structure DsMeta where
  robot_type : String
  fps : ℚ
  features : Value

/-- The three `(field, dataset_value, present_value)` comparisons, in source
order.  The robot-side feature schema is the result of
`get_features_from_robot(robot, use_videos)` (outside the embedded sources)
and is taken as an argument. -/
def compatFields (d : DsMeta) (robot_type : String) (fps : ℚ)
    (robot_features : Value) : List (String × Value × Value) :=
  [("robot_type", Value.str d.robot_type, Value.str robot_type),
   ("fps", Value.num d.fps, Value.num fps),
   ("features", d.features, robot_features)]

/-- Embeds `sanity_check_dataset_robot_compatibility`: collects every field whose
DeepDiff (under the `info` exclusion) is non-empty, each rendered as the
triple `(field, expected = present value, got = dataset value)`; raises with
the full list when non-empty, returns normally otherwise. -/
def sanity_check_dataset_robot_compatibility (d : DsMeta) (robot_type : String)
    (fps : ℚ) (robot_features : Value) :
    Except (List (String × Value × Value)) Unit :=
  let mismatches := (compatFields d robot_type fps robot_features).filterMap
    (fun x => if deepDiffNonempty x.2.1 x.2.2 then some (x.1, x.2.2, x.2.1) else none)
  if mismatches.isEmpty then .ok () else .error mismatches

/-!
Action prediction `predict_action`.

Tensors are embedded by the attributes the claims speak about: element type,
shape, holding device, and lower/upper bounds on the element values.  Each
torch operation used by `predict_action` becomes a function on this record;
`contiguous()` only changes memory layout and is the identity here.
-/

/-- The tensor attributes `predict_action` manipulates. -/
structure Tensor where
  dtype : String
  shape : List ℕ
  device : String
  lo : ℚ
  hi : ℚ
deriving DecidableEq

/-- Embeds `t.type(dty)`: casts the element type (uint8 values embed exactly into
float32, so the value bounds are unchanged). -/
def tensorType (t : Tensor) (dty : String) : Tensor := { t with dtype := dty }

/-- Embeds `t / c`: scales every element, hence both bounds, by `1 / c`. -/
def tensorDiv (t : Tensor) (c : ℚ) : Tensor := { t with lo := t.lo / c, hi := t.hi / c }

/-- Embeds `t.permute(2, 0, 1)`: reorders the three dimensions of an
(height, width, channel) image to channel-first; torch raises when the tensor
does not have exactly three dimensions. -/
def tensorPermute201 (t : Tensor) : Except String Tensor :=
  match t.shape with
  | [h, w, c] => .ok { t with shape := [c, h, w] }
  | _ => .error "RuntimeError: permute dimension count mismatch"

/-- Embeds `t.contiguous()`: memory layout only, no modelled attribute changes. -/
def tensorContiguous (t : Tensor) : Tensor := t

/-- Embeds `t.unsqueeze(0)`: adds a leading batch dimension. -/
def tensorUnsqueeze0 (t : Tensor) : Tensor := { t with shape := 1 :: t.shape }

/-- Embeds `t.squeeze(0)`: removes the leading dimension when it has extent 1. -/
def tensorSqueeze0 (t : Tensor) : Tensor :=
  match t.shape with
  | 1 :: rest => { t with shape := rest }
  | _ => t

/-- Embeds `t.to(dev)`: moves the tensor to a device. -/
def tensorTo (t : Tensor) (dev : String) : Tensor := { t with device := dev }

/-- Embeds `torch.device`, reduced to its `type` attribute. -/
structure TorchDevice where
  ty : String
deriving DecidableEq

/-- The ambient context a policy call runs under: gradient tracking disabled
by `torch.inference_mode()`, reduced precision by `torch.autocast`. -/
structure InferenceCtx where
  inference_mode : Bool
  autocast : Bool
deriving DecidableEq

/-- The policy collaborator: `select_action` on a processed observation,
invoked under an ambient inference context. -/
structure Policy where
  select_action : InferenceCtx → List (String × Tensor) → Tensor

/-- Substring test: the Python expression `pat in s` on strings. -/
def matchesAt : List Char → List Char → Bool
  | [], _ => true
  | _ :: _, [] => false
  | p :: ps, c :: cs => p == c && matchesAt ps cs

/-- Companion of `strContains` scanning every start position. -/
def containsPat (pat : List Char) : List Char → Bool
  | [] => matchesAt pat []
  | c :: cs => matchesAt pat (c :: cs) || containsPat pat cs

/-- The Python membership test `pat in s` for strings. -/
def strContains (s pat : String) : Bool := containsPat pat.toList s.toList

/-- The image-only stage of the per-channel conversion: cast to float32,
scale by `1 / 255`, reorder to channel-first, make contiguous. -/
def imageStage (name : String) (t : Tensor) : Except String Tensor :=
  if strContains name "image" then
    match tensorPermute201 (tensorDiv (tensorType t "float32") 255) with
    | .error e => .error e
    | .ok t1 => .ok (tensorContiguous t1)
  else .ok t

/-- The whole per-channel conversion of `predict_action`: image conversion
when the channel name contains `image`, then a leading batch dimension, then
the move to the compute device. -/
def processChannel (dev : String) (name : String) (t : Tensor) : Except String Tensor :=
  match imageStage name t with
  | .error e => .error e
  | .ok t1 => .ok (tensorTo (tensorUnsqueeze0 t1) dev)

/-- Applies a fallible per-entry transform to every entry of the observation
dictionary, keeping keys and order (reassigning an existing key of a Python
dict keeps its position). -/
def mapEntriesM (f : String → Tensor → Except String Tensor) :
    List (String × Tensor) → Except String (List (String × Tensor))
  | [] => .ok []
  | (n, t) :: rest =>
    match f n t with
    | .error e => .error e
    | .ok t1 =>
      match mapEntriesM f rest with
      | .error e => .error e
      | .ok rest1 => .ok ((n, t1) :: rest1)

/-- Everything `predict_action` leaves behind: the mapping the caller still
holds after the call, the processed copy handed to the policy, the ambient
context of the policy call, and the returned action. -/
structure PredictResult where
  caller_observation : List (String × Tensor)
  processed_observation : List (String × Tensor)
  ctx : InferenceCtx
  action : Tensor

/-- Embeds `predict_action`: copies the observation (`copy(observation)`, so every
per-channel update below rebinds a key of the copy and the caller's mapping is
untouched), converts every channel, invokes the policy inside
`torch.inference_mode()` — with `torch.autocast` exactly when the device type
is `cuda` and `use_amp` is set — then drops the batch dimension of the result
and moves it to the cpu. -/
def predict_action (observation : List (String × Tensor)) (policy : Policy)
    (device : TorchDevice) (use_amp : Bool) : Except String PredictResult :=
  match mapEntriesM (processChannel device.ty) observation with
  | .error e => .error e
  | .ok processed =>
    .ok { caller_observation := observation
          processed_observation := processed
          ctx := { inference_mode := true, autocast := device.ty == "cuda" && use_amp }
          action := tensorTo (tensorSqueeze0 (policy.select_action
            { inference_mode := true, autocast := device.ty == "cuda" && use_amp }
            processed)) "cpu" }

/-!
Helper lemmas about the loop model.
-/

theorem getFlag_setFlag_self (e : Events) (k : String) (v : Bool) :
    getFlag (setFlag e k v) k = some v := by
  induction e with
  | nil => simp [setFlag, getFlag]
  | cons hd tl ih =>
    obtain ⟨k0, v0⟩ := hd
    by_cases h : k0 = k
    · simp [setFlag, getFlag, h]
    · simp [setFlag, getFlag, h, ih]

theorem applyExt_not_shared (inp : IterInput) (e : Events) :
    applyExt false inp e = e := rfl

/-- Which loop parameters an emitted action witnesses: the shape every action
produced by an iteration of `runIters` satisfies. -/
def actFrom (p : LoopParams) : Act → Prop
  | Act.connect => False
  | Act.teleopStep => p.teleoperate = true
  | Act.captureObservation => p.teleoperate = false
  | Act.sendAction => p.teleoperate = false ∧ p.policy = true
  | Act.addFrame => p.dataset.isSome = true
  | Act.display => p.display_cameras = true ∧ p.headless = false
  | Act.busyWait per dt w =>
      w = busy_wait (per - dt) ∧ ∃ f : ℕ, p.fps = some f ∧ per = 1 / (f : ℚ)
  | Act.log => True

theorem mem_obsActs {p : LoopParams} {a : Act} (h : a ∈ obsActs p) : actFrom p a := by
  cases ht : p.teleoperate with
  | true =>
    simp [obsActs, ht] at h
    subst h; exact ht
  | false =>
    cases hp : p.policy with
    | true =>
      simp [obsActs, ht, hp] at h
      rcases h with h | h <;> subst h
      · exact ht
      · exact ⟨ht, hp⟩
    | false =>
      simp [obsActs, ht, hp] at h
      subst h; exact ht

theorem mem_waitActs {p : LoopParams} {inp : IterInput} {a : Act}
    (h : a ∈ waitActs p inp) : actFrom p a := by
  cases hf : p.fps with
  | none => simp [waitActs, hf] at h
  | some f =>
    simp [waitActs, hf] at h
    subst h
    exact ⟨rfl, f, hf, (one_div _).symm⟩

theorem mem_tailActs {p : LoopParams} {inp : IterInput} {a : Act}
    (h : a ∈ tailActs p inp) : actFrom p a := by
  unfold tailActs at h
  simp only [List.mem_append, List.mem_singleton] at h
  rcases h with ((h | h) | h) | h
  · cases hd : p.dataset.isSome
    · simp [hd] at h
    · simp [hd] at h
      subst h; exact hd
  · cases hdisp : (p.display_cameras && !p.headless)
    · simp [hdisp] at h
    · simp [hdisp] at h
      subst h
      rcases Bool.and_eq_true .. |>.mp hdisp with ⟨h1, h2⟩
      exact ⟨h1, by simpa using h2⟩
  · exact mem_waitActs h
  · subst h; trivial

theorem runIters_mem_trace (p : LoopParams) (inputs : List IterInput) :
    ∀ (ts : ℚ) (ev : Events) (tr : List Act) (a : Act),
      a ∈ resultTrace (runIters p inputs ts ev tr) → a ∈ tr ∨ actFrom p a := by
  induction inputs with
  | nil =>
    intro ts ev tr a h
    rw [runIters] at h
    split at h <;> exact Or.inl (by simpa [resultTrace] using h)
  | cons inp rest ih =>
    intro ts ev tr a h
    rw [runIters] at h
    split at h
    · by_cases hb : (p.dataset.isSome && !(p.teleoperate || p.policy)) = true
      · rw [if_pos hb] at h
        simp only [resultTrace, List.mem_append] at h
        rcases h with h | h
        · exact Or.inl h
        · exact Or.inr (mem_obsActs h)
      · rw [if_neg hb] at h
        rcases hg : getFlag (applyExt p.shared inp ev) "exit_early" with _ | b
        · rw [hg] at h
          simp only [resultTrace, List.append_assoc, List.mem_append] at h
          rcases h with h | h | h
          · exact Or.inl h
          · exact Or.inr (mem_obsActs h)
          · exact Or.inr (mem_tailActs h)
        · rw [hg] at h
          cases b with
          | true =>
            simp only [if_true, resultTrace, List.append_assoc, List.mem_append] at h
            rcases h with h | h | h
            · exact Or.inl h
            · exact Or.inr (mem_obsActs h)
            · exact Or.inr (mem_tailActs h)
          | false =>
            simp only [if_false] at h
            rcases ih inp.ts (applyExt p.shared inp ev)
                (tr ++ obsActs p ++ tailActs p inp) a h with h | h
            · simp only [List.append_assoc, List.mem_append] at h
              rcases h with h | h | h
              · exact Or.inl h
              · exact Or.inr (mem_obsActs h)
              · exact Or.inr (mem_tailActs h)
            · exact Or.inr h
    · exact Or.inl (by simpa [resultTrace] using h)

theorem runIters_done_exit_early (p : LoopParams) (inputs : List IterInput) :
    ∀ (ts : ℚ) (ev : Events) (tr : List Act) (k : ExitKind) (ev1 : Events) (tr1 : List Act),
      runIters p inputs ts ev tr = .done k ev1 tr1 →
      getFlag ev1 "exit_early" = some false ∨
        (ev1 = ev ∧ k = .duration ∧ loopCond p.control_time_s ts = false) := by
  induction inputs with
  | nil =>
    intro ts ev tr k ev1 tr1 h
    by_cases hc : loopCond p.control_time_s ts = true
    · rw [runIters, if_pos hc] at h
      cases h
    · rw [runIters, if_neg hc] at h
      injection h with h1 h2 h3
      exact Or.inr ⟨h2.symm, h1.symm, by simpa using hc⟩
  | cons inp rest ih =>
    intro ts ev tr k ev1 tr1 h
    by_cases hc : loopCond p.control_time_s ts = true
    · rw [runIters, if_pos hc] at h
      by_cases hb : (p.dataset.isSome && !(p.teleoperate || p.policy)) = true
      · rw [if_pos hb] at h
        cases h
      · rw [if_neg hb] at h
        rcases hg : getFlag (applyExt p.shared inp ev) "exit_early" with _ | b
        · rw [hg] at h
          cases h
        · rw [hg] at h
          cases b with
          | true =>
            simp only [if_true] at h
            injection h with h1 h2 h3
            exact Or.inl (h2 ▸ getFlag_setFlag_self ..)
          | false =>
            simp only [Bool.false_eq_true, if_false] at h
            rcases ih inp.ts (applyExt p.shared inp ev) _ k ev1 tr1 h with h1 | ⟨h1, _, _⟩
            · exact Or.inl h1
            · exact Or.inl (h1 ▸ hg)
    · rw [runIters, if_neg hc] at h
      injection h with h1 h2 h3
      exact Or.inr ⟨h2.symm, h1.symm, by simpa using hc⟩

theorem resetIters_done_exit_early (inputs : List IterInput) :
    ∀ (rts ts : ℚ) (ev : Events) (k : ExitKind) (ev1 : Events),
      resetIters inputs rts ts ev = .done k ev1 →
      getFlag ev1 "exit_early" = some false ∨
        (ev1 = ev ∧ k = .duration ∧ decide (ts < rts) = false) := by
  induction inputs with
  | nil =>
    intro rts ts ev k ev1 h
    by_cases hc : decide (ts < rts) = true
    · rw [resetIters, if_pos hc] at h
      cases h
    · rw [resetIters, if_neg hc] at h
      injection h with h1 h2
      exact Or.inr ⟨h2.symm, h1.symm, by simpa using hc⟩
  | cons inp rest ih =>
    intro rts ts ev k ev1 h
    by_cases hc : decide (ts < rts) = true
    · rw [resetIters, if_pos hc] at h
      rcases hg : getFlag (applyExt true inp ev) "exit_early" with _ | b
      · rw [hg] at h
        cases h
      · rw [hg] at h
        cases b with
        | true =>
          simp only [if_true] at h
          injection h with h1 h2
          exact Or.inl (h2 ▸ getFlag_setFlag_self ..)
        | false =>
          simp only [Bool.false_eq_true, if_false] at h
          rcases ih rts inp.ts (applyExt true inp ev) k ev1 h with h1 | ⟨h1, _, _⟩
          · exact Or.inl h1
          · exact Or.inl (h1 ▸ hg)
    · rw [resetIters, if_neg hc] at h
      injection h with h1 h2
      exact Or.inr ⟨h2.symm, h1.symm, by simpa using hc⟩

theorem runIters_not_shared (p : LoopParams) (inputs : List IterInput)
    (hsh : p.shared = false) :
    ∀ (ts : ℚ) (ev : Events) (tr : List Act),
      getFlag ev "exit_early" = some false →
      (∀ k ev1 tr1, runIters p inputs ts ev tr = .done k ev1 tr1 →
        k = .duration ∧ ev1 = ev) ∧
      (∀ m tr1, runIters p inputs ts ev tr = .runtimeError m tr1 →
        m = unboundActionMsg) := by
  induction inputs with
  | nil =>
    intro ts ev tr hflag
    constructor
    · intro k ev1 tr1 h
      by_cases hc : loopCond p.control_time_s ts = true
      · rw [runIters, if_pos hc] at h
        cases h
      · rw [runIters, if_neg hc] at h
        injection h with h1 h2 h3
        exact ⟨h1.symm, h2.symm⟩
    · intro m tr1 h
      by_cases hc : loopCond p.control_time_s ts = true
      · rw [runIters, if_pos hc] at h
        cases h
      · rw [runIters, if_neg hc] at h
        cases h
  | cons inp rest ih =>
    intro ts ev tr hflag
    have hext : applyExt p.shared inp ev = ev := by rw [hsh, applyExt_not_shared]
    by_cases hc : loopCond p.control_time_s ts = true
    · constructor
      · intro k ev1 tr1 h
        rw [runIters, if_pos hc] at h
        by_cases hb : (p.dataset.isSome && !(p.teleoperate || p.policy)) = true
        · rw [if_pos hb] at h
          cases h
        · rw [if_neg hb, hext, hflag] at h
          simp only [Bool.false_eq_true, if_false] at h
          exact (ih inp.ts ev _ hflag).1 k ev1 tr1 h
      · intro m tr1 h
        rw [runIters, if_pos hc] at h
        by_cases hb : (p.dataset.isSome && !(p.teleoperate || p.policy)) = true
        · rw [if_pos hb] at h
          injection h with h1 h2
          exact h1.symm
        · rw [if_neg hb, hext, hflag] at h
          simp only [Bool.false_eq_true, if_false] at h
          exact (ih inp.ts ev _ hflag).2 m tr1 h
    · constructor
      · intro k ev1 tr1 h
        rw [runIters, if_neg hc] at h
        injection h with h1 h2 h3
        exact ⟨h1.symm, h2.symm⟩
      · intro m tr1 h
        rw [runIters, if_neg hc] at h
        cases h

theorem mem_initTrace {rc : Bool} {a : Act} (h : a ∈ initTrace rc) : a = Act.connect := by
  cases rc
  · simpa [initTrace] using h
  · simp [initTrace] at h


theorem control_loop_cases (args : LoopArgs) (inputs : List IterInput) :
    control_loop args inputs =
      runIters (mkParams args) inputs 0 (initialEvents args.events)
        (initTrace args.robot_connected) ∨
    control_loop args inputs =
      .configError modeExclusivityMsg (initTrace args.robot_connected) ∨
    control_loop args inputs =
      .runtimeError "KeyError: fps" (initTrace args.robot_connected) := by
  unfold control_loop
  by_cases h1 : (args.teleoperate && args.policy) = true
  · rw [if_pos h1]
    exact Or.inr (Or.inl rfl)
  · rw [if_neg h1]
    rcases hd : args.dataset with _ | d
    · exact Or.inl rfl
    · rcases hf : args.fps with _ | f
      · exact Or.inl rfl
      · dsimp only
        by_cases hm : d.fps ≠ (f : ℚ)
        · rw [if_pos hm]
          exact Or.inr (Or.inr rfl)
        · rw [if_neg hm]
          exact Or.inl rfl

/-!
Claim theorems for the control-loop claims.
-/

/-- Claim C1, counterexample: the claim asserts `exit_early` is false
immediately after every return of `control_loop`.  But the boundary check only
runs after an iteration: with `control_time_s = 0` the `while` condition fails
before the first iteration, and a caller-supplied events dictionary with
`exit_early = True` is returned untouched — `exit_early` is still true after
the loop returns. -/
theorem C1_counterexample :
    control_loop
        { robot_connected := true, control_time_s := some 0,
          events := some [("exit_early", true)] } [] =
      .done .duration [("exit_early", true)] [] ∧
    getFlag [("exit_early", true)] "exit_early" = some true :=
  ⟨rfl, rfl⟩

/-- Claim C1 (amended): in `control_loop` and in each tick loop of
`reset_environment`, whenever `exit_early` is observed true at the
end-of-iteration boundary it is reset to false and the loop terminates
immediately; consequently, when the loop returns, either `exit_early` is false
or the loop ran zero iterations (the duration was already exhausted at entry)
and the events dictionary is returned exactly as passed in. -/
theorem C1_exit_early_cleared :
    (∀ (args : LoopArgs) (inputs : List IterInput) (k : ExitKind) (ev : Events)
        (tr : List Act),
      control_loop args inputs = .done k ev tr →
      getFlag ev "exit_early" = some false ∨
        (ev = initialEvents args.events ∧ k = .duration ∧
          loopCond args.control_time_s 0 = false)) ∧
    (∀ (ev0 : Events) (rts : ℚ) (inputs : List IterInput) (k : ExitKind) (ev : Events),
      reset_environment ev0 rts inputs = .done k ev →
      getFlag ev "exit_early" = some false ∨
        (ev = ev0 ∧ k = .duration ∧ decide ((0 : ℚ) < rts) = false)) := by
  constructor
  · intro args inputs k ev tr h
    rcases control_loop_cases args inputs with hc | hc | hc
    · rw [hc] at h
      exact runIters_done_exit_early _ _ _ _ _ _ _ _ h
    · rw [hc] at h
      cases h
    · rw [hc] at h
      cases h
  · intro ev0 rts inputs k ev h
    exact resetIters_done_exit_early _ _ _ _ _ _ h

/-- Claim C1 witness: a run whose single iteration observes `exit_early` true
terminates early with the flag cleared. -/
theorem C1_exit_early_cleared_witness :
    getFlag [("exit_early", false)] "exit_early" = some false :=
  (C1_exit_early_cleared.1
      { robot_connected := true, control_time_s := some 1, teleoperate := true,
        events := some [("exit_early", false)] }
      [⟨0, 2, true, false, false⟩] .earlyExit [("exit_early", false)]
      [Act.teleopStep, Act.log] rfl).resolve_right (by decide)

/-- Claim C2: with `teleoperate=False`, `policy=None` and a dataset supplied,
the pre-flight validations do not reject the configuration; the first
iteration captures an observation and then crashes with an unbound-variable
error while building the frame, because the local `action` was never
assigned.  No invalid-configuration error is raised before the loop, and an
observation is captured. -/
theorem C2_missing_policy_not_validated :
    control_loop
        { robot_connected := true, control_time_s := some 10, dataset := some ⟨30⟩ }
        [⟨0, 1, false, false, false⟩] =
      .runtimeError unboundActionMsg [Act.captureObservation] ∧
    ([Act.captureObservation].contains Act.captureObservation) = true :=
  ⟨rfl, rfl⟩

/-- Claim C3, counterexample: the claim asserts the mode-exclusivity rejection
happens before any device I/O, in particular before any connect.  But
`control_loop` connects the robot first: with an unconnected robot,
`robot.connect()` is performed and only then is the configuration rejected —
the trace of the rejected call contains the connect. -/
theorem C3_counterexample :
    control_loop { robot_connected := false, teleoperate := true, policy := true } [] =
      .configError modeExclusivityMsg [Act.connect] ∧
    (resultTrace (control_loop
        { robot_connected := false, teleoperate := true, policy := true } [])).contains
      Act.connect = true :=
  ⟨rfl, rfl⟩

/-- Claim C3 (amended): with `teleoperate=True` and a policy supplied,
`control_loop` raises the mode-exclusivity error before any loop iteration,
teleoperation step, or observation capture — its whole trace is the
pre-validation connect when the robot was not yet connected, and empty
otherwise. -/
theorem C3_mode_exclusivity_rejected (args : LoopArgs) (inputs : List IterInput)
    (ht : args.teleoperate = true) (hp : args.policy = true) :
    control_loop args inputs =
      .configError modeExclusivityMsg (initTrace args.robot_connected) := by
  unfold control_loop
  rw [ht, hp]
  rfl

/-- Claim C3 witness. -/
theorem C3_mode_exclusivity_rejected_witness :
    control_loop { robot_connected := true, teleoperate := true, policy := true } [] =
      .configError modeExclusivityMsg [] :=
  C3_mode_exclusivity_rejected
    { robot_connected := true, teleoperate := true, policy := true } [] rfl rfl

/-- Claim C4: with a dataset of fps 30 and requested fps 15, `control_loop`
is indeed rejected before the first iteration (the trace is empty), but the
error that propagates is the `KeyError` produced by the message's
`dataset["fps"]` subscript — not the intended descriptive `ValueError` — and
its text names neither the dataset's frame rate 30 nor the requested 15. -/
theorem C4_fps_mismatch_keyerror :
    control_loop { robot_connected := true, dataset := some ⟨30⟩, fps := some 15 } [] =
      .runtimeError "KeyError: fps" [] ∧
    strContains "KeyError: fps" "30" = false ∧
    strContains "KeyError: fps" "15" = false :=
  ⟨rfl, rfl, rfl⟩

/-- Claim C6: every wait performed by the pacing step of any `control_loop`
run is non-negative, and whenever the elapsed iteration time reached the
target period `1 / fps` the wait is exactly zero and the loop proceeds
immediately. -/
theorem C6_wait_never_negative (args : LoopArgs) (inputs : List IterInput)
    (per dt w : ℚ)
    (h : Act.busyWait per dt w ∈ resultTrace (control_loop args inputs)) :
    0 ≤ w ∧ (per ≤ dt → w = 0) := by
  have hw : w = busy_wait (per - dt) := by
    rcases control_loop_cases args inputs with hc | hc | hc
    · rw [hc] at h
      rcases runIters_mem_trace _ _ _ _ _ _ h with h1 | h1
      · cases mem_initTrace h1
      · exact h1.1
    · rw [hc] at h
      cases mem_initTrace (by simpa [resultTrace] using h)
    · rw [hc] at h
      cases mem_initTrace (by simpa [resultTrace] using h)
  constructor
  · rw [hw, busy_wait]
    split
    · exact le_refl 0
    · next hpos => exact (not_le.mp hpos).le
  · intro hle
    rw [hw, busy_wait, if_pos (sub_nonpos.mpr hle)]

/-- Claim C6 witness: an overrunning iteration (elapsed 2 s against a ½ s
period at 2 fps) performs a non-negative wait, which is exactly zero because
the period was exceeded. -/
theorem C6_wait_never_negative_witness :
    0 ≤ busy_wait (1 / ((2 : ℕ) : ℚ) - 2) ∧
    (1 / ((2 : ℕ) : ℚ) ≤ 2 → busy_wait (1 / ((2 : ℕ) : ℚ) - 2) = 0) :=
  C6_wait_never_negative
    { robot_connected := true, control_time_s := some 1, teleoperate := true,
      events := some [("exit_early", false)], fps := some 2 }
    [⟨2, 5, false, false, false⟩] (1 / ((2 : ℕ) : ℚ)) 2
    (busy_wait (1 / ((2 : ℕ) : ℚ) - 2))
    (by
      have h : control_loop
          { robot_connected := true, control_time_s := some 1, teleoperate := true,
            events := some [("exit_early", false)], fps := some 2 }
          [⟨2, 5, false, false, false⟩] =
          .done .duration [("exit_early", false)]
            [Act.teleopStep,
              Act.busyWait (1 / ((2 : ℕ) : ℚ)) 2 (busy_wait (1 / ((2 : ℕ) : ℚ) - 2)),
              Act.log] := rfl
      rw [h]
      exact List.Mem.tail _ (List.Mem.head _))

/-- Claim C9, counterexample: the claim asserts warm-up always runs the
control loop with teleoperation enabled.  But `warmup_record` forwards the
caller's `enable_teleoperation` flag: with `enable_teleoperation=False` the
underlying loop iteration captures an observation instead of performing a
teleoperation step. -/
theorem C9_counterexample :
    warmup_record true (some [("exit_early", false)]) false (some 10) false true none
        [⟨0, 20, false, false, false⟩] =
      .done .duration [("exit_early", false)] [Act.captureObservation, Act.log] ∧
    (resultTrace (warmup_record true (some [("exit_early", false)]) false (some 10)
        false true none [⟨0, 20, false, false, false⟩])).contains Act.teleopStep = false :=
  ⟨rfl, rfl⟩

/-- Claim C9 (amended): `warmup_record` runs the control loop with
teleoperation set to the caller's `enable_teleoperation` flag and with no
recording target; consequently no frame is ever recorded during warm-up,
whatever the warm-up duration or the other arguments. -/
theorem C9_warmup_never_records (robot_connected : Bool) (events : Option Events)
    (enable_teleoperation : Bool) (warmup_time_s : Option ℚ)
    (display_cameras headless : Bool) (fps : Option ℕ) (inputs : List IterInput) :
    (resultTrace (warmup_record robot_connected events enable_teleoperation
        warmup_time_s display_cameras headless fps inputs)).contains Act.addFrame =
      false := by
  have hnm : Act.addFrame ∉ resultTrace (warmup_record robot_connected events
      enable_teleoperation warmup_time_s display_cameras headless fps inputs) := by
    intro hmem
    unfold warmup_record at hmem
    rcases control_loop_cases _ inputs with hc | hc | hc
    · rw [hc] at hmem
      rcases runIters_mem_trace _ _ _ _ _ _ hmem with h1 | h1
      · cases mem_initTrace h1
      · simp [actFrom, mkParams] at h1
    · rw [hc] at hmem
      cases mem_initTrace (by simpa [resultTrace] using hmem)
    · rw [hc] at hmem
      cases mem_initTrace (by simpa [resultTrace] using hmem)
  simpa using hnm

/-- Claim C9 witness: a concrete warm-up run records no frame. -/
theorem C9_warmup_never_records_witness :
    (resultTrace (warmup_record true (some [("exit_early", false)]) true (some 10)
        false true (some 30) [⟨0, 20, false, false, false⟩])).contains Act.addFrame =
      false :=
  C9_warmup_never_records true (some [("exit_early", false)]) true (some 10)
    false true (some 30) [⟨0, 20, false, false, false⟩]

/-- Claim C10: with `events=None`, `control_loop` substitutes the fresh
dictionary containing only `exit_early=False`; flag access never fails (no
`KeyError` on `exit_early` is ever raised), the fresh dictionary is invisible
to the keyboard listener, so absent any other mutation a terminating run can
only terminate by duration exhaustion — never by early exit — and returns
that same fresh dictionary. -/
theorem C10_default_events (args : LoopArgs) (inputs : List IterInput)
    (h : args.events = none) :
    initialEvents args.events = [("exit_early", false)] ∧
    (∀ k ev tr, control_loop args inputs = .done k ev tr →
      k = .duration ∧ ev = [("exit_early", false)]) ∧
    (∀ m tr, control_loop args inputs = .runtimeError m tr →
      (m == exitKeyErrorMsg) = false) := by
  have hsh : (mkParams args).shared = false := by
    simp [mkParams, h]
  have hflag : getFlag ([("exit_early", false)] : Events) "exit_early" = some false := rfl
  have hinit : initialEvents args.events = [("exit_early", false)] := by
    rw [h]
    rfl
  refine ⟨hinit, ?_, ?_⟩
  · intro k ev tr hr
    rcases control_loop_cases args inputs with hc | hc | hc
    · rw [hc, hinit] at hr
      rcases (runIters_not_shared _ inputs hsh 0 _ _ hflag).1 k ev tr hr with ⟨h1, h2⟩
      exact ⟨h1, h2⟩
    · rw [hc] at hr
      cases hr
    · rw [hc] at hr
      cases hr
  · intro m tr hr
    rcases control_loop_cases args inputs with hc | hc | hc
    · rw [hc, hinit] at hr
      have := (runIters_not_shared _ inputs hsh 0 _ _ hflag).2 m tr hr
      rw [this]
      decide
    · rw [hc] at hr
      cases hr
    · rw [hc] at hr
      injection hr with h1 h2
      rw [← h1]
      decide

/-- Claim C10 witness: a run with `events=None` that exhausts its duration
returns the fresh dictionary by duration exhaustion. -/
theorem C10_default_events_witness :
    ExitKind.duration = ExitKind.duration ∧
    ([("exit_early", false)] : Events) = [("exit_early", false)] :=
  (C10_default_events { robot_connected := true, control_time_s := some 0 } [] rfl).2.1
    .duration [("exit_early", false)] [] rfl

/-- Claim C5: the compatibility check compares the robot type, the frame rate
and the full feature schema independently, each under the `info` exclusion; it
returns normally exactly when no field differs, and otherwise fails reporting
every differing field — each with its expected (robot-side) and actual
(dataset-side) value — never only a subset. -/
theorem C5_all_mismatches_reported (d : DsMeta) (rt : String) (fps : ℚ) (rf : Value) :
    (sanity_check_dataset_robot_compatibility d rt fps rf = .ok () ↔
      ((compatFields d rt fps rf).filter fun x => deepDiffNonempty x.2.1 x.2.2) = []) ∧
    (∀ l, sanity_check_dataset_robot_compatibility d rt fps rf = .error l →
      l = ((compatFields d rt fps rf).filter fun x => deepDiffNonempty x.2.1 x.2.2).map
        fun x => (x.1, x.2.2, x.2.1)) := by
  unfold sanity_check_dataset_robot_compatibility compatFields
  cases hb1 : deepDiffNonempty (Value.str d.robot_type) (Value.str rt) <;>
    cases hb2 : deepDiffNonempty (Value.num d.fps) (Value.num fps) <;>
      cases hb3 : deepDiffNonempty d.features rf <;>
        simp [List.filterMap, List.filter, hb1, hb2, hb3]

/-- Claim C5 witness: with a robot-type mismatch, an fps mismatch, and feature
schemas that differ only inside the excluded `info` sub-field, the checker
reports exactly the two real mismatches, in order, with expected and actual
values. -/
theorem C5_all_mismatches_reported_witness :
    ([("robot_type", Value.str "aloha", Value.str "koch"),
      ("fps", Value.num 15, Value.num 30)] :
        List (String × Value × Value)) =
      ((compatFields
          ⟨"koch", 30,
            Value.dict [("a", Value.dict [("dtype", Value.str "f32"),
              ("info", Value.num 1)])]⟩
          "aloha" 15
          (Value.dict [("a", Value.dict [("dtype", Value.str "f32"),
            ("info", Value.num 2)])])).filter
        fun x => deepDiffNonempty x.2.1 x.2.2).map fun x => (x.1, x.2.2, x.2.1) :=
  (C5_all_mismatches_reported
      ⟨"koch", 30,
        Value.dict [("a", Value.dict [("dtype", Value.str "f32"),
          ("info", Value.num 1)])]⟩
      "aloha" 15
      (Value.dict [("a", Value.dict [("dtype", Value.str "f32"),
        ("info", Value.num 2)])])).2
    [("robot_type", Value.str "aloha", Value.str "koch"),
     ("fps", Value.num 15, Value.num 30)] rfl

/-- What the per-channel conversion of `predict_action` produces, per channel:
the result lives on the compute device; an image channel becomes float32 with
both value bounds scaled by `1 / 255` (hence inside `[0, 1]` for uint8 data)
and its `(h, w, c)` shape reordered channel-first under a leading batch
dimension; a non-image channel is unchanged except for the batch dimension
and the device. -/
def channelSpec (dev : String) (n : String) (t t1 : Tensor) : Prop :=
  t1.device = dev ∧
  (strContains n "image" = true →
    t1.dtype = "float32" ∧ t1.lo = t.lo / 255 ∧ t1.hi = t.hi / 255 ∧
    (0 ≤ t.lo → t.hi ≤ 255 → 0 ≤ t1.lo ∧ t1.hi ≤ 1) ∧
    (∀ h w c, t.shape = [h, w, c] → t1.shape = [1, c, h, w])) ∧
  (strContains n "image" = false → t1 = { t with shape := 1 :: t.shape, device := dev })

theorem processChannel_spec (dev n : String) (t t1 : Tensor)
    (h : processChannel dev n t = .ok t1) : channelSpec dev n t t1 := by
  cases hc : strContains n "image" with
  | false =>
    have hi : imageStage n t = .ok t := by simp [imageStage, hc]
    rw [processChannel, hi] at h
    injection h with h1
    subst h1
    refine ⟨rfl, ?_, fun _ => rfl⟩
    intro hcontra
    rw [hc] at hcontra
    cases hcontra
  | true =>
    rcases hsh : t.shape with _ | ⟨a, _ | ⟨b, _ | ⟨c, _ | ⟨e, rest⟩⟩⟩⟩ <;>
      simp only [processChannel, imageStage, hc, if_true, tensorPermute201,
        tensorDiv, tensorType, hsh, tensorContiguous, tensorUnsqueeze0, tensorTo] at h
    case nil => cases h
    case cons.nil => cases h
    case cons.cons.nil => cases h
    case cons.cons.cons.cons => cases h
    case cons.cons.cons.nil =>
      injection h with h1
      subst h1
      refine ⟨rfl, ?_, ?_⟩
      · intro _
        refine ⟨rfl, rfl, rfl, ?_, ?_⟩
        · intro hlo hhi
          exact ⟨div_nonneg hlo (by norm_num),
            (div_le_one (by norm_num : (0 : ℚ) < 255)).mpr hhi⟩
        · intro h1 w1 c1 heq
          rw [hsh] at heq
          injection heq with e1 heq
          injection heq with e2 heq
          injection heq with e3 _
          rw [e1, e2, e3]
      · intro hcontra
        rw [hc] at hcontra
        cases hcontra

theorem mapEntriesM_ok (f : String → Tensor → Except String Tensor) :
    ∀ (l l1 : List (String × Tensor)), mapEntriesM f l = .ok l1 →
      List.Forall₂ (fun a b => a.1 = b.1 ∧ f a.1 a.2 = .ok b.2) l l1 := by
  intro l
  induction l with
  | nil =>
    intro l1 h
    rw [mapEntriesM] at h
    injection h with h1
    subst h1
    exact .nil
  | cons hd tl ih =>
    intro l1 h
    obtain ⟨n, t⟩ := hd
    rw [mapEntriesM] at h
    rcases hf : f n t with e | t1
    · rw [hf] at h
      cases h
    · rw [hf] at h
      rcases hm : mapEntriesM f tl with e | tl1
      · rw [hm] at h
        cases h
      · rw [hm] at h
        injection h with h1
        subst h1
        exact .cons ⟨rfl, hf⟩ (ih tl1 hm)

/-- Claim C7: `predict_action` converts every image channel to floating point
scaled into `[0, 1]` and channel-first order, adds a leading batch dimension
to every channel and moves it to the compute device; the policy call runs
with gradient tracking disabled and under reduced precision exactly when the
device is a cuda accelerator and `use_amp` is set; the batch dimension of the
policy's result is removed and the action is returned on the cpu. -/
theorem C7_predict_action_pipeline (obs : List (String × Tensor)) (policy : Policy)
    (device : TorchDevice) (use_amp : Bool) (res : PredictResult)
    (h : predict_action obs policy device use_amp = .ok res) :
    res.ctx = { inference_mode := true, autocast := device.ty == "cuda" && use_amp } ∧
    List.Forall₂ (fun en ep => en.1 = ep.1 ∧ channelSpec device.ty en.1 en.2 ep.2)
      obs res.processed_observation ∧
    res.action = tensorTo (tensorSqueeze0
      (policy.select_action res.ctx res.processed_observation)) "cpu" ∧
    res.action.device = "cpu" ∧
    (∀ s, (policy.select_action res.ctx res.processed_observation).shape = 1 :: s →
      res.action.shape = s) := by
  rw [predict_action] at h
  rcases hm : mapEntriesM (processChannel device.ty) obs with e | processed
  · rw [hm] at h
    cases h
  · rw [hm] at h
    injection h with h1
    subst h1
    refine ⟨rfl, ?_, rfl, rfl, ?_⟩
    · exact (mapEntriesM_ok _ obs processed hm).imp
        (fun en ep hab => ⟨hab.1, processChannel_spec _ _ _ _ hab.2⟩)
    · intro s hs
      show (tensorTo (tensorSqueeze0 _) "cpu").shape = s
      simp [tensorTo, tensorSqueeze0, hs]

/-- A concrete observation used to instantiate the prediction pipeline: one
uint8 image channel of shape (4, 5, 3) with values in [0, 255] and one
non-image state channel. -/
def predObs7 : List (String × Tensor) :=
  [("observation.images.cam", ⟨"uint8", [4, 5, 3], "cpu", 0, 255⟩),
   ("observation.state", ⟨"float32", [6], "cpu", -1, 1⟩)]

/-- A concrete policy returning a batched action of shape (1, 7). -/
def predPolicy7 : Policy := ⟨fun _ _ => ⟨"float32", [1, 7], "cuda", 0, 0⟩⟩

/-- The result of the prediction pipeline on `predObs7` with `predPolicy7` on
a cuda device with `use_amp` set. -/
def predRes7 : PredictResult :=
  { caller_observation := predObs7
    processed_observation :=
      [("observation.images.cam", ⟨"float32", [1, 3, 4, 5], "cuda", 0 / 255, 255 / 255⟩),
       ("observation.state", ⟨"float32", [1, 6], "cuda", -1, 1⟩)]
    ctx := { inference_mode := true, autocast := true }
    action := ⟨"float32", [7], "cpu", 0, 0⟩ }

/-- Claim C7 witness: on the concrete observation the returned action lives on
the cpu and lost its batch dimension. -/
theorem C7_predict_action_pipeline_witness :
    predRes7.action.device = "cpu" ∧ predRes7.action.shape = [7] := by
  have h := C7_predict_action_pipeline predObs7 predPolicy7 ⟨"cuda"⟩ true predRes7 rfl
  exact ⟨h.2.2.2.1, h.2.2.2.2 [7] rfl⟩

/-- Claim C8: the caller's observation mapping is unchanged by
`predict_action` — the same keys are bound to the same values after the call,
because the per-channel conversions rebind keys of `copy(observation)`, never
of the caller's mapping. -/
theorem C8_caller_observation_unchanged (obs : List (String × Tensor))
    (policy : Policy) (device : TorchDevice) (use_amp : Bool) (res : PredictResult)
    (h : predict_action obs policy device use_amp = .ok res) :
    res.caller_observation = obs := by
  rw [predict_action] at h
  rcases hm : mapEntriesM (processChannel device.ty) obs with e | processed
  · rw [hm] at h
    cases h
  · rw [hm] at h
    injection h with h1
    subst h1
    rfl

/-- A concrete observation for the purity check. -/
def predObs8 : List (String × Tensor) :=
  [("observation.state", ⟨"float32", [6], "cpu", -1, 1⟩)]

/-- A concrete policy for the purity check. -/
def predPolicy8 : Policy := ⟨fun _ _ => ⟨"float32", [1, 3], "cpu", 0, 0⟩⟩

/-- The result of the prediction pipeline on `predObs8` with `predPolicy8` on
a cpu device without amp. -/
def predRes8 : PredictResult :=
  { caller_observation := predObs8
    processed_observation := [("observation.state", ⟨"float32", [1, 6], "cpu", -1, 1⟩)]
    ctx := { inference_mode := true, autocast := false }
    action := ⟨"float32", [3], "cpu", 0, 0⟩ }

/-- Claim C8 witness: on the concrete observation the caller-visible mapping
after the call is exactly the original. -/
theorem C8_caller_observation_unchanged_witness :
    predRes8.caller_observation = predObs8 :=
  C8_caller_observation_unchanged predObs8 predPolicy8 ⟨"cpu"⟩ false predRes8 rfl
